import Mathlib

/-!
Verification development for the Andse_AI request-orchestration core.

This file gives a shallow embedding, in Lean, of the Python modules
`automation_engine.py`, `email_service.py`, `reasoning_engine.py`,
`ai_engine.py` and `memory_manager.py`, restricted to the behaviour the
design claims talk about, and proves or refutes each claim against it.

Modelling conventions:
- Python exceptions are made explicit: a computation that can raise is
  embedded either as an `Option`/`PyOutcome` value or, for generators, as
  a `raised` flag in the result record.
- `datetime` values are embedded as `Nat` ordinals (only their ordering
  matters to the code under study).
- Network collaborators (SMTP, HTTP search, the LLM streaming client) are
  embedded by their interface outcomes, passed in as parameters, exactly
  at the call boundary the source uses them.
-/

namespace Andse

/-- Outcome of evaluating a Python expression: either a value or a raised
exception carrying its message. -/
inductive PyOutcome (α : Type) where
  | val (a : α)
  | exn (msg : String)
deriving DecidableEq

/-! ## email_service.py -/

/-- Embedding of `EmailService.send_email` (email_service.py lines 17-43).
The parameters model the constructor state (`self.username`,
`self.password`, read from the environment) and the outcome of the SMTP
session in the `try` block. The function returns `False` when credentials
are missing (a falsy username or password), returns `True` when the SMTP
session completes, and catches every exception from the SMTP session,
returning `False`; it never raises to its caller. Its third positional
parameter is named `body_html` in the source, which matters below. -/
def send_email (username password : Option String) (smtp_ok : Bool) : Bool :=
  match username, password with
  | some u, some p => if u = "" ∨ p = "" then false else smtp_ok
  | _, _ => false

/-- Outcome of the Python call expression
`email_service.send_email(recipient=..., subject=..., body=...)` as it
appears at both call sites (automation_engine.py lines 52-56 and
reasoning_engine.py lines 62-66). The callee signature
(email_service.py line 17) is `def send_email(self, recipient, subject,
body_html)`: there is no parameter named `body`, so Python keyword binding
fails and the call raises `TypeError` before the function body runs. -/
def send_email_call_with_body_kw : PyOutcome Bool :=
  PyOutcome.exn "TypeError: send_email() got an unexpected keyword argument body"

/-! ## automation_engine.py -/

/-- One scheduled task, the dict built by `AutomationEngine.create_task`
(automation_engine.py lines 30-35). The payload dict is flattened to its
two used keys. Task records are never mutated after creation. -/
structure Task where
  type : String
  payloadEmail : Option String
  payloadContent : Option String
  trigger_time : Nat
  id : Nat
deriving DecidableEq

/-- One iteration of the `for task in executable_tasks` body inside
`_monitor_tasks` (automation_engine.py lines 48-60), acting on the pair
(task queue, list of attempted email-send executions so far). Inside the
`try`: when the task type is `email_report` the engine evaluates the send
call, whose outcome is `send_email_call_with_body_kw`; if that call raised,
the `except` branch logs and leaves the queue unchanged, otherwise control
reaches `self.task_queue.remove(task)`. For every other task type no
handler runs and control falls directly through to the `remove` call, which
deletes the first queue element equal to the task. -/
def monitor_step (acc : List Task × List Task) (t : Task) : List Task × List Task :=
  if t.type = "email_report" then
    match send_email_call_with_body_kw with
    | PyOutcome.val _ => (acc.1.erase t, acc.2 ++ [t])
    | PyOutcome.exn _ => (acc.1, acc.2 ++ [t])
  else
    (acc.1.erase t, acc.2)

/-- One pass of the poll loop in `_monitor_tasks` (automation_engine.py
lines 43-62): snapshot `now`, select `executable_tasks` as every queued
task whose `trigger_time` is not after `now`, then run `monitor_step` over
them in queue order. Returns the queue after the pass together with the
list of tasks whose email-send execution was attempted during the pass. -/
def monitor_tasks_pass (now : Nat) (queue : List Task) : List Task × List Task :=
  let executable := queue.filter (fun t => decide (t.trigger_time ≤ now))
  executable.foldl monitor_step (queue, [])

/-! ## String utilities shared by the dispatch and AI layers -/

/-- Python's `str.lower()`, written over the character list (pointwise
`Char.toLower`, which is what `String.toLower` also does) so that it can be
evaluated by kernel reduction on concrete inputs. -/
def pyLower (s : String) : String := String.mk (s.data.map Char.toLower)

/-- Occurrence of a character pattern inside a character list: some suffix
of `s` starts with `pat`. This is Python's `pat in s` substring test. -/
def occursL : List Char → List Char → Bool
  | pat, [] => pat.isEmpty
  | pat, c :: rest => pat.isPrefixOf (c :: rest) || occursL pat rest

/-- Python's `pat in s` on strings. -/
def strOccurs (pat s : String) : Bool :=
  occursL pat.data s.data

/-! ## reasoning_engine.py -/

/-- Trigger of the web-search tool (reasoning_engine.py line 51). -/
def searchTrigger (lower : String) : Bool :=
  ["search", "latest", "current", "news", "who is", "weather"].any
    (fun w => strOccurs w lower)

/-- Trigger of the email tool (reasoning_engine.py line 58). -/
def emailTrigger (lower : String) : Bool :=
  strOccurs "email me" lower || strOccurs "send email" lower

/-- Trigger of the scheduling tool (reasoning_engine.py line 73). -/
def schedTrigger (lower : String) : Bool :=
  strOccurs "remind me" lower || strOccurs "schedule" lower

/-- Trigger of the image tool (reasoning_engine.py line 86). -/
def imageTrigger (lower : String) : Bool :=
  ["generate image", "create a picture", "draw"].any
    (fun w => strOccurs w lower)

/-- Fragment yielded at reasoning_engine.py line 52. -/
def searchFrag : String := "🔍 *Initiating Global Network Scan...*\n\n"

/-- Fragment yielded at reasoning_engine.py line 59. -/
def emailFrag : String := "📧 *Accessing SMTP Protocol...*\n\n"

/-- Fragment yielded at reasoning_engine.py line 74. -/
def schedFrag : String := "⏰ *Configuring Temporal Trigger...*\n\n"

/-- Fragment yielded at reasoning_engine.py line 83 (the source apostrophes
are written as the escape x27). -/
def schedDone (user_input : String) : String :=
  "✅ **Temporal Trigger Set:** I will notify you in 2 minutes regarding: \x27"
    ++ user_input ++ "\x27.\n\n"

/-- Fragment yielded at reasoning_engine.py line 87. -/
def imageFrag : String := "🎨 *Initializing Neural Rendering...*\n\n"

/-- Fragment yielded at reasoning_engine.py line 90. -/
def imageMarkdown (url : String) : String :=
  "![Generated Image](" ++ url ++ ")\n\n"

/-- Fragment yielded at reasoning_engine.py line 93. -/
def imageErrFrag : String := "❌ **Rendering Error:** Visual synthesis failed.\n\n"

/-- The web-search contribution to `context_extension`
(reasoning_engine.py line 54). -/
def webCtx (lower searchRes : String) : String :=
  if searchTrigger lower then "\n[WEB_SEARCH_RESULTS]: " ++ searchRes ++ "\n" else ""

/-- Observable outcome of one `ReasoningEngine.process_request` generator:
the fragments it yielded in order, the final prompt it passed to the LLM
client (`none` when an uncaught exception aborted the generator before
step 4), and whether such an exception escaped to the consumer. -/
structure ReqResult where
  frags : List String
  finalPrompt : Option String
  raised : Bool
deriving DecidableEq

/-- Embedding of `ReasoningEngine.process_request`
(reasoning_engine.py lines 22-115) for a text-only request
(`file_info = None`). Parameters at the collaborator boundaries:
`searchRes` is the string returned by `web_searcher.search` (that function
catches its own exceptions and always returns a string), `imageRes` is the
value returned by `image_gen.generate` (`some url` or `none`, that function
also never raises), and `chunks` are the fragments produced by iterating
`llm_client.generate_response`, a collaborator stream.

Control flow follows the source: the search branch yields its fragment and
extends the context; the email branch yields its fragment and then
evaluates the send call, whose outcome is `send_email_call_with_body_kw` —
a raised `TypeError`, which propagates out of the generator (were the call
ever to return, the very next line subscripts its boolean result with
`result[...]`, again a `TypeError`), so both match arms abort; the
scheduling branch yields two fragments (`create_task` only appends to a
list and cannot raise); the image branch yields its fragment, then on
`some url` yields the markdown fragment and rebinds `user_input` to a fixed
acknowledgement sentence followed by the original text, and on `none`
yields the error fragment leaving `user_input` unchanged; finally the
prompt `context_extension + "\nUser Request: " + user_input` is passed to
the LLM client and its chunks are yielded. -/
def process_request (userEmail user_input searchRes : String)
    (imageRes : Option String) (chunks : List String) : ReqResult :=
  let text_lower := pyLower user_input
  let frags1 := if searchTrigger text_lower then [searchFrag] else []
  if emailTrigger text_lower then
    match send_email_call_with_body_kw with
    | PyOutcome.exn _ =>
        { frags := frags1 ++ [emailFrag], finalPrompt := none, raised := true }
    | PyOutcome.val _ =>
        { frags := frags1 ++ [emailFrag], finalPrompt := none, raised := true }
  else
    let frags2 := frags1 ++ (if schedTrigger text_lower then [schedFrag, schedDone user_input] else [])
    let afterImage :=
      if imageTrigger text_lower then
        match imageRes with
        | some url =>
            (frags2 ++ [imageFrag, imageMarkdown url],
             "I have successfully generated the image. Please explain what I created: "
               ++ user_input)
        | none => (frags2 ++ [imageFrag, imageErrFrag], user_input)
      else (frags2, user_input)
    { frags := afterImage.1 ++ chunks,
      finalPrompt := some (webCtx text_lower searchRes ++ "\nUser Request: " ++ afterImage.2),
      raised := false }

/-- The fragment block the search branch contributes to the stream. -/
def searchBlock (lower : String) : List String :=
  if searchTrigger lower then [searchFrag] else []

/-- The fragment block the scheduling branch contributes to the stream. -/
def schedBlock (lower user_input : String) : List String :=
  if schedTrigger lower then [schedFrag, schedDone user_input] else []

/-- The fragment block the image branch contributes to the stream. -/
def imageBlock (lower : String) (imageRes : Option String) : List String :=
  if imageTrigger lower then
    match imageRes with
    | some url => [imageFrag, imageMarkdown url]
    | none => [imageFrag, imageErrFrag]
  else []

/-- Number of tool triggers an utterance matches (used to state the
multi-tool dispatch claims). -/
def triggerCount (lower : String) : Nat :=
  (if searchTrigger lower then 1 else 0) + (if emailTrigger lower then 1 else 0)
    + (if schedTrigger lower then 1 else 0) + (if imageTrigger lower then 1 else 0)

/-! ## ai_engine.py -/

/-- Image-request trigger of `NeuralEngine.think` (ai_engine.py line 72). -/
def aiImageTrigger (user_input : String) : Bool :=
  ["draw", "generate image", "visualize", "paint"].any
    (fun t => strOccurs t (pyLower user_input))

/-- The cleaned prompt computed by `NeuralEngine._generate_image`
(ai_engine.py line 129): lower-case, delete the literal substrings "draw"
and "generate image", strip surrounding whitespace. -/
def cleanOf (prompt : String) : String :=
  (((pyLower prompt).replace "draw" "").replace "generate image" "").trim

/-- Embedding of `NeuralEngine._generate_image` (ai_engine.py lines
127-132); `seed` stands for the value of `random.randint(1, 1000000)`. -/
def generate_image (seed : Nat) (prompt : String) : String :=
  "![Output](https://image.pollinations.ai/prompt/"
    ++ (cleanOf prompt ++ ("?seed=" ++ (toString seed
    ++ ("&model=flux&nologo=true)\n\n**Visual Synthesis:** *"
    ++ (cleanOf prompt ++ "*")))))

/-- Embedding of `NeuralEngine._try_groq` (ai_engine.py lines 87-105).
Each list entry is the outcome of one `chat.completions.create` call for
the corresponding model of `self.groq_models`, in order: `none` when the
call raised (the `except` branch logs and continues) and `some s` when it
returned, `s` being the message content interpolated into the f-string at
line 101. Note the source returns that string immediately, with no
emptiness check. The function returns `None` after the loop exhausts. -/
def try_groq : List (Option String) → Option String
  | [] => none
  | some s :: _ => some s
  | none :: rest => try_groq rest

/-- Embedding of `NeuralEngine._try_gemini` (ai_engine.py lines 107-125).
Each entry is the outcome of one `generate_content` call for the
corresponding model of `self.gemini_models`: `none` when it raised, and
`some s` when it returned with text `s`. Line 121 returns only when
`response.text` is truthy, so an empty text falls through and the loop
continues with the next model; the function returns `None` after the loop
exhausts. -/
def try_gemini : List (Option String) → Option String
  | [] => none
  | some s :: rest => if s = "" then try_gemini rest else some s
  | none :: rest => try_gemini rest

/-- Python truthiness filter applied by `if resp: return resp`
(ai_engine.py lines 78 and 83): `None` and the empty string are falsy. -/
def truthy (o : Option String) : Option String :=
  match o with
  | some s => if s = "" then none else some s
  | none => none

/-- The message returned when `self.is_active` is false
(ai_engine.py line 69). -/
def neuralOfflineMsg : String :=
  "❌ **NEURAL OFFLINE:** Please verify API keys in your .env file and restart the server."

/-- The message returned when every provider candidate has been exhausted
(ai_engine.py line 85), the canonical offline sentinel of the design. -/
def offlineSentinel : String :=
  "❌ **Neural Critical Failure:** All providers (Groq/Gemini) are unresponsive. Check logs for details."

/-- Embedding of `NeuralEngine.think` (ai_engine.py lines 66-85).
`is_active`, `has_groq` and `has_gemini` model `self.is_active`,
`self.groq_client` and `self.client`; `groqOut` and `gemOut` are the
per-model call outcomes consumed by `try_groq` and `try_gemini`; `seed`
feeds `generate_image`. The source returns the offline message when
inactive, short-circuits to `_generate_image` on the image trigger, else
tries Groq then Gemini, each result filtered by Python truthiness, and
falls back to the critical-failure sentinel. Every exception a provider
call can raise is caught inside the helpers, so `think` always returns a
string and never raises. -/
def think (is_active has_groq has_gemini : Bool)
    (groqOut gemOut : List (Option String)) (seed : Nat) (user_input : String) : String :=
  if is_active = false then neuralOfflineMsg
  else if aiImageTrigger user_input then generate_image seed user_input
  else
    match truthy (if has_groq then try_groq groqOut else none) with
    | some s => s
    | none =>
      match truthy (if has_gemini then try_gemini gemOut else none) with
      | some s => s
      | none => offlineSentinel

/-! ## memory_manager.py -/

/-- One row of the `Message` model as used by `get_chat_history`:
`timestamp` is the ordering key of the `order_by` clause and the Python
`sorted` key. -/
structure Msg where
  timestamp : Nat
  role : String
  content : String
deriving DecidableEq

/-- Boolean ascending-timestamp comparison. -/
def leAsc (a b : Msg) : Bool := decide (a.timestamp ≤ b.timestamp)

/-- Boolean descending-timestamp comparison. -/
def leDesc (a b : Msg) : Bool := decide (b.timestamp ≤ a.timestamp)

/-- The store query of memory_manager.py lines 36-39:
`order_by(Message.timestamp.desc()).limit(limit)` — the session's rows
sorted by recency (newest first), truncated to `limit`. -/
def storeQueryDesc (stored : List Msg) (limit : Nat) : List Msg :=
  (stored.mergeSort leDesc).take limit

/-- Embedding of `MemoryManager.get_chat_history` (memory_manager.py lines
31-44). `store` is the outcome of the ORM query: `Except.ok stored` gives
the session's stored messages, `Except.error e` models the query raising.
On success the code re-sorts the fetched window ascending by timestamp
(line 41); the `except` branch (lines 42-44) logs and returns the empty
list. The source defaults `limit` to 10; it is kept explicit here. -/
def get_chat_history (store : Except String (List Msg)) (limit : Nat) : List Msg :=
  match store with
  | Except.ok stored => (storeQueryDesc stored limit).mergeSort leAsc
  | Except.error _ => []

/-! ## Lemmas about one scheduler pass -/

/-- An email_report task in the queue survives every step of a pass: the
email arm of `monitor_step` never reaches the `remove` call (the send call
raises), and the non-email arm only erases a task of a different type. -/
lemma monitor_foldl_keep_email (t : Task) (hty : t.type = "email_report") :
    ∀ (l : List Task) (acc : List Task × List Task),
      t ∈ acc.1 → t ∈ (l.foldl monitor_step acc).1 := by
  intro l
  induction l with
  | nil => intro acc h; exact h
  | cons u l ih =>
    intro acc h
    apply ih
    by_cases hu : u.type = "email_report"
    · simpa [monitor_step, hu, send_email_call_with_body_kw] using h
    · have hne : t ≠ u := fun he => hu (he ▸ hty)
      simpa [monitor_step, hu] using (List.mem_erase_of_ne hne).mpr h

/-- The list of attempted executions only grows along a pass. -/
lemma monitor_foldl_sends_mono (t : Task) :
    ∀ (l : List Task) (acc : List Task × List Task),
      t ∈ acc.2 → t ∈ (l.foldl monitor_step acc).2 := by
  intro l
  induction l with
  | nil => intro acc h; exact h
  | cons u l ih =>
    intro acc h
    apply ih
    by_cases hu : u.type = "email_report"
    · simp [monitor_step, hu, send_email_call_with_body_kw]
      exact Or.inl h
    · simpa [monitor_step, hu] using h

/-- Every email_report task selected as executable has its send attempted
during the pass. -/
lemma monitor_foldl_sends_of_mem (t : Task) (hty : t.type = "email_report") :
    ∀ (l : List Task) (acc : List Task × List Task),
      t ∈ l → t ∈ (l.foldl monitor_step acc).2 := by
  intro l
  induction l with
  | nil => intro acc h; exact absurd h (List.not_mem_nil t)
  | cons u l ih =>
    intro acc h
    rcases List.mem_cons.mp h with he | hm
    · subst he
      rw [List.foldl_cons]
      apply monitor_foldl_sends_mono
      simp [monitor_step, hty, send_email_call_with_body_kw]
    · exact ih (monitor_step acc u) hm

/-- A task absent from the queue stays absent: steps only erase. -/
lemma monitor_foldl_not_mem (t : Task) :
    ∀ (l : List Task) (acc : List Task × List Task),
      t ∉ acc.1 → t ∉ (l.foldl monitor_step acc).1 := by
  intro l
  induction l with
  | nil => intro acc h; exact h
  | cons u l ih =>
    intro acc h
    apply ih
    by_cases hu : u.type = "email_report"
    · simpa [monitor_step, hu, send_email_call_with_body_kw] using h
    · simp only [monitor_step, hu, if_neg]
      intro hmem
      exact h ((List.erase_sublist u acc.1).mem hmem)

/-- A task of a kind other than email_report that occurs once in the queue
and is processed during the pass is erased and never comes back. -/
lemma monitor_foldl_removes (t : Task) (hty : ¬ t.type = "email_report") :
    ∀ (l : List Task) (acc : List Task × List Task),
      t ∈ l → acc.1.count t = 1 → t ∉ (l.foldl monitor_step acc).1 := by
  intro l
  induction l with
  | nil => intro acc h; exact absurd h (List.not_mem_nil t)
  | cons u l ih =>
    intro acc h hcount
    by_cases hu : u = t
    · subst hu
      rw [List.foldl_cons]
      apply monitor_foldl_not_mem
      have h0 : (acc.1.erase u).count u = 0 := by
        rw [List.count_erase_self, hcount]
      have hnm : u ∉ acc.1.erase u := List.count_eq_zero.mp h0
      simpa [monitor_step, hty] using hnm
    · have hm : t ∈ l := by
        rcases List.mem_cons.mp h with he | hm
        · exact absurd he.symm hu
        · exact hm
      apply ih (monitor_step acc u) hm
      by_cases hu' : u.type = "email_report"
      · simpa [monitor_step, hu', send_email_call_with_body_kw] using hcount
      · have hne : t ≠ u := fun he => hu he.symm
        simpa [monitor_step, hu', List.count_erase_of_ne hne] using hcount

/-- Only email_report tasks ever reach the execution attempt. -/
lemma monitor_foldl_sends_email_only :
    ∀ (l : List Task) (acc : List Task × List Task),
      acc.2.all (fun s => decide (s.type = "email_report")) = true →
      (l.foldl monitor_step acc).2.all (fun s => decide (s.type = "email_report")) = true := by
  intro l
  induction l with
  | nil => intro acc h; exact h
  | cons u l ih =>
    intro acc h
    apply ih
    by_cases hu : u.type = "email_report"
    · simp [monitor_step, hu, send_email_call_with_body_kw, List.all_append, h]
    · simpa [monitor_step, hu] using h

/-! ## Lemmas about the provider iteration -/

/-- When every Groq model call raises or returns empty text, truthiness
filtering of the `_try_groq` result yields nothing. -/
lemma truthy_try_groq_none :
    ∀ (l : List (Option String)), (∀ o ∈ l, o = none ∨ o = some "") →
      truthy (try_groq l) = none := by
  intro l
  induction l with
  | nil => intro h; rfl
  | cons o rest ih =>
    intro h
    cases o with
    | none => exact ih (fun o ho => h o (List.mem_cons_of_mem _ ho))
    | some s =>
      rcases h (some s) (List.mem_cons_self _ _) with h1 | h1
      · exact absurd h1 (by simp)
      · have hs : s = "" := by simpa using h1
        subst hs
        rfl

/-- When every Gemini model call raises or returns empty text, `_try_gemini`
exhausts its list and returns nothing. -/
lemma try_gemini_none_of_failed :
    ∀ (l : List (Option String)), (∀ o ∈ l, o = none ∨ o = some "") →
      try_gemini l = none := by
  intro l
  induction l with
  | nil => intro h; rfl
  | cons o rest ih =>
    intro h
    cases o with
    | none => exact ih (fun o ho => h o (List.mem_cons_of_mem _ ho))
    | some s =>
      rcases h (some s) (List.mem_cons_self _ _) with h1 | h1
      · exact absurd h1 (by simp)
      · have hs : s = "" := by simpa using h1
        subst hs
        simpa [try_gemini] using ih (fun o ho => h o (List.mem_cons_of_mem _ ho))

/-! ## Lemmas about substring occurrence -/

/-- A character list is a starting segment of itself followed by anything. -/
lemma isPrefixOf_append_self : ∀ (p r : List Char), p.isPrefixOf (p ++ r) = true := by
  intro p
  induction p with
  | nil => intro r; simp [List.isPrefixOf]
  | cons a p ih => intro r; simp [List.isPrefixOf, ih]

/-- A pattern that starts some suffix occurs in any extension to the left. -/
lemma occursL_of_starts : ∀ (l pat s : List Char),
    pat.isPrefixOf s = true → occursL pat (l ++ s) = true := by
  intro l
  induction l with
  | nil =>
    intro pat s h
    cases s with
    | nil =>
      cases pat with
      | nil => rfl
      | cons a as => simp [List.isPrefixOf] at h
    | cons c cs => simp [occursL, h]
  | cons c l ih =>
    intro pat s h
    simp [occursL, ih pat s h]

/-- Occurrence of the middle part of a three-way concatenation. -/
lemma strOccurs_concat (pre pat post : String) :
    strOccurs pat (pre ++ (pat ++ post)) = true := by
  unfold strOccurs
  rw [String.data_append, String.data_append]
  exact occursL_of_starts pre.data pat.data (pat.data ++ post.data)
    (isPrefixOf_append_self pat.data post.data)

/-! ## Lemmas about the history sort keys -/

lemma leAsc_trans : ∀ (a b c : Msg),
    leAsc a b = true → leAsc b c = true → leAsc a c = true := by
  intro a b c h1 h2
  simp only [leAsc, decide_eq_true_eq] at h1 h2 ⊢
  exact le_trans h1 h2

lemma leAsc_total : ∀ (a b : Msg), (leAsc a b || leAsc b a) = true := by
  intro a b
  simp only [leAsc, Bool.or_eq_true, decide_eq_true_eq]
  exact Nat.le_total a.timestamp b.timestamp

lemma leDesc_trans : ∀ (a b c : Msg),
    leDesc a b = true → leDesc b c = true → leDesc a c = true := by
  intro a b c h1 h2
  simp only [leDesc, decide_eq_true_eq] at h1 h2 ⊢
  exact le_trans h2 h1

lemma leDesc_total : ∀ (a b : Msg), (leDesc a b || leDesc b a) = true := by
  intro a b
  simp only [leDesc, Bool.or_eq_true, decide_eq_true_eq]
  exact Nat.le_total b.timestamp a.timestamp

/-! ## Claim C1 -/

/-- A concrete task of an unhandled kind, used to refute the universal
removal-only-on-success clause. -/
def cleanupTaskA : Task :=
  { type := "cleanup", payloadEmail := none, payloadContent := some "tidy",
    trigger_time := 5, id := 1 }

/-- C1, counterexample: the claim says a task is removed from the queue only
when its execution succeeds. A due task of kind cleanup is removed by one
pass although no execution of it was ever attempted (the pass makes zero
execution attempts), so no execution of it succeeded. -/
theorem c1_removed_without_success :
    (monitor_tasks_pass 10 [cleanupTaskA]).1 = [] ∧
    (monitor_tasks_pass 10 [cleanupTaskA]).2 = [] := by
  decide

/-- C1, amended: for every due email_report task in the queue, one pass of
the poll loop attempts its execution — which fails, since the send call
raises TypeError (keyword body against parameter body_html) — and leaves
the very same task record (hence with unchanged triggerTime) in the queue,
so it is attempted again on the following poll cycle. -/
theorem c1_email_report_failing_task_retained (now : Nat) (q : List Task) (t : Task)
    (hmem : t ∈ q) (hty : t.type = "email_report") (hdue : t.trigger_time ≤ now) :
    t ∈ (monitor_tasks_pass now q).1 ∧ t ∈ (monitor_tasks_pass now q).2 := by
  have hexec : t ∈ q.filter (fun t => decide (t.trigger_time ≤ now)) :=
    List.mem_filter.mpr ⟨hmem, by simpa using hdue⟩
  unfold monitor_tasks_pass
  exact ⟨monitor_foldl_keep_email t hty _ (q, []) hmem,
    monitor_foldl_sends_of_mem t hty _ (q, []) hexec⟩

/-- A concrete email_report task for the C1 witness. -/
def emailTaskW : Task :=
  { type := "email_report", payloadEmail := some "a@b.example",
    payloadContent := some "hi", trigger_time := 4, id := 9 }

/-- Witness for C1: a due email_report task is attempted and retained. -/
theorem c1_email_report_failing_task_retained_witness :
    emailTaskW ∈ (monitor_tasks_pass 10 [emailTaskW]).1 ∧
    emailTaskW ∈ (monitor_tasks_pass 10 [emailTaskW]).2 :=
  c1_email_report_failing_task_retained 10 [emailTaskW] emailTaskW
    (by decide) (by decide) (by decide)

/-! ## Claim C6 -/

/-- A concrete task of an unhandled kind for the C6 counterexample. -/
def reminderTaskB : Task :=
  { type := "reminder", payloadEmail := none, payloadContent := some "call mom",
    trigger_time := 3, id := 2 }

/-- C6, counterexample: the claim says a task whose kind has no registered
handler is never executed and never removed, remaining queued indefinitely.
A due reminder task is indeed never executed (the pass attempts no
execution), but one pass removes it from the queue. -/
theorem c6_unknown_kind_removed :
    (monitor_tasks_pass 7 [reminderTaskB]).1 = [] ∧
    (monitor_tasks_pass 7 [reminderTaskB]).2 = [] := by
  decide

/-- C6, amended: a queued task whose kind is not email_report is never
executed (every execution attempt of a pass is for an email_report task),
but it does not remain queued: one poll pass removes it from the queue as
soon as it is due (stated for a task occurring once in the queue; the
source `list.remove` deletes one occurrence). -/
theorem c6_unknown_kind_never_executed_removed_when_due
    (now : Nat) (q : List Task) (t : Task)
    (hty : ¬ t.type = "email_report") (hdue : t.trigger_time ≤ now)
    (hcount : q.count t = 1) :
    t ∉ (monitor_tasks_pass now q).1 ∧
    (monitor_tasks_pass now q).2.all (fun s => decide (s.type = "email_report")) = true := by
  have hexec : t ∈ q.filter (fun t => decide (t.trigger_time ≤ now)) :=
    List.mem_filter.mpr ⟨List.count_pos_iff.mp (by rw [hcount]; exact Nat.one_pos),
      by simpa using hdue⟩
  unfold monitor_tasks_pass
  exact ⟨monitor_foldl_removes t hty _ (q, []) hexec hcount,
    monitor_foldl_sends_email_only _ (q, []) rfl⟩

/-- A concrete unhandled-kind task for the C6 witness. -/
def cleanupTaskC : Task :=
  { type := "cleanup", payloadEmail := some "z@z.example", payloadContent := none,
    trigger_time := 2, id := 11 }

/-- Witness for C6: a due cleanup task is removed by the pass and the pass
attempts only email_report executions. -/
theorem c6_unknown_kind_never_executed_removed_when_due_witness :
    cleanupTaskC ∉ (monitor_tasks_pass 5 [cleanupTaskC]).1 ∧
    (monitor_tasks_pass 5 [cleanupTaskC]).2.all
      (fun s => decide (s.type = "email_report")) = true :=
  c6_unknown_kind_never_executed_removed_when_due 5 [cleanupTaskC] cleanupTaskC
    (by decide) (by decide) (by decide)

/-! ## Claim C2 -/

/-- C2, failing input: the claim says the email tool is invoked and both
success and failure of the send produce a user-visible fragment, with a
failing send never aborting the remaining dispatch chain or the final
generation. On the utterance below — which triggers both the email and the
image tools — the generator emits only the email progress fragment and then
aborts with the uncaught TypeError from the send call (keyword body against
parameter body_html; were the call to return, `result` would be a bool and
the subscript `result` with key success would raise as well): no
success/failure fragment is emitted, the image tool fragment never appears,
and the final LLM synthesis is never reached. -/
theorem c2_email_branch_aborts_pipeline :
    emailTrigger (pyLower "Please send email and draw a cat") = true ∧
    imageTrigger (pyLower "Please send email and draw a cat") = true ∧
    (process_request "u@example.com" "Please send email and draw a cat"
        "results" (some "/img.png") ["answer"]).raised = true ∧
    (process_request "u@example.com" "Please send email and draw a cat"
        "results" (some "/img.png") ["answer"]).frags = [emailFrag] ∧
    (process_request "u@example.com" "Please send email and draw a cat"
        "results" (some "/img.png") ["answer"]).finalPrompt = none := by
  decide

/-! ## Claim C4 -/

/-- C4, counterexample: the claim says that for every utterance matching
two or more tool triggers the progress fragments appear in the emitted
stream in the fixed priority order search, email, schedule, image. The
utterance below triggers both the email and the image tools, yet the image
progress fragment never appears in the emitted stream at all: the email
branch aborts the generator first. -/
theorem c4_email_trigger_breaks_dispatch_order :
    2 ≤ triggerCount (pyLower "send email and draw a picture") ∧
    imageTrigger (pyLower "send email and draw a picture") = true ∧
    imageFrag ∉ (process_request "user@example.com" "send email and draw a picture"
      "res" (some "/a.png") ["Ans"]).frags := by
  decide

/-- C4, amended: for every utterance matching two or more tool triggers and
not triggering the email tool (whose invocation raises and aborts the
stream), the emitted stream is exactly the search block, then the schedule
block, then the image block, then the generated-answer fragments — the
fixed priority order, independent of where the trigger keywords occur in
the text — and the generator completes without raising. -/
theorem c4_dispatch_priority_order (userEmail user_input searchRes : String)
    (imageRes : Option String) (chunks : List String)
    (hemail : emailTrigger (pyLower user_input) = false)
    (h2 : 2 ≤ triggerCount (pyLower user_input)) :
    (process_request userEmail user_input searchRes imageRes chunks).frags
      = searchBlock (pyLower user_input) ++ schedBlock (pyLower user_input) user_input
        ++ imageBlock (pyLower user_input) imageRes ++ chunks ∧
    (process_request userEmail user_input searchRes imageRes chunks).raised = false := by
  by_cases himg : imageTrigger (pyLower user_input) = true <;>
    cases imageRes <;>
      simp [process_request, searchBlock, schedBlock, imageBlock, hemail, himg]

/-- Witness for C4: the spec scenario utterance triggering the search and
image tools, with a successful image generation. -/
theorem c4_dispatch_priority_order_witness :
    (process_request "u@x.example" "search latest news and draw a cat"
        "R" (some "/a.png") ["Ans"]).frags
      = searchBlock (pyLower "search latest news and draw a cat")
        ++ schedBlock (pyLower "search latest news and draw a cat")
            "search latest news and draw a cat"
        ++ imageBlock (pyLower "search latest news and draw a cat") (some "/a.png")
        ++ ["Ans"] ∧
    (process_request "u@x.example" "search latest news and draw a cat"
        "R" (some "/a.png") ["Ans"]).raised = false :=
  c4_dispatch_priority_order "u@x.example" "search latest news and draw a cat"
    "R" (some "/a.png") ["Ans"] (by decide) (by decide)

/-! ## Claim C8 -/

/-- C8, counterexample: the claim says that on success the resulting asset
reference is spliced into the utterance text itself before generation. On
the successful run below, the prompt handed to the final model call does
not contain the returned asset reference at all — the utterance is instead
rewritten to a fixed acknowledgement sentence, and the asset reference
appears only in the emitted markdown fragment. -/
theorem c8_asset_reference_not_in_prompt :
    (process_request "u@x.example" "draw a dog" ""
        (some "/static/uploads/images/output/gen_1.png") []).finalPrompt
      = some "\nUser Request: I have successfully generated the image. Please explain what I created: draw a dog" ∧
    strOccurs "/static/uploads/images/output/gen_1.png"
      "\nUser Request: I have successfully generated the image. Please explain what I created: draw a dog" = false := by
  decide

/-- C8, amended: for every utterance that triggers the image tool (and not
the email tool, whose invocation aborts the stream first): on success the
asset markdown fragment is appended to the stream and the utterance passed
to generation is rewritten to a fixed acknowledgement sentence followed by
the original utterance — asking the model to explain what was created,
without the asset reference itself; on failure an explicit error fragment
is appended to the stream and the utterance is left unchanged. -/
theorem c8_image_branch_rewrite (userEmail user_input searchRes url : String)
    (chunks : List String)
    (himg : imageTrigger (pyLower user_input) = true)
    (hemail : emailTrigger (pyLower user_input) = false) :
    (process_request userEmail user_input searchRes (some url) chunks).finalPrompt
      = some (webCtx (pyLower user_input) searchRes ++ "\nUser Request: "
          ++ ("I have successfully generated the image. Please explain what I created: "
              ++ user_input)) ∧
    imageMarkdown url ∈ (process_request userEmail user_input searchRes (some url) chunks).frags ∧
    (process_request userEmail user_input searchRes none chunks).finalPrompt
      = some (webCtx (pyLower user_input) searchRes ++ "\nUser Request: " ++ user_input) ∧
    imageErrFrag ∈ (process_request userEmail user_input searchRes none chunks).frags := by
  refine ⟨?_, ?_, ?_, ?_⟩ <;> simp [process_request, hemail, himg, webCtx]

/-- Witness for C8: a concrete image-only utterance, in both the success
and the failure case. -/
theorem c8_image_branch_rewrite_witness :
    (process_request "w@x.example" "draw a sunset" "S" (some "/static/x.png") ["ok"]).finalPrompt
      = some (webCtx (pyLower "draw a sunset") "S" ++ "\nUser Request: "
          ++ ("I have successfully generated the image. Please explain what I created: "
              ++ "draw a sunset")) ∧
    imageMarkdown "/static/x.png"
      ∈ (process_request "w@x.example" "draw a sunset" "S" (some "/static/x.png") ["ok"]).frags ∧
    (process_request "w@x.example" "draw a sunset" "S" none ["ok"]).finalPrompt
      = some (webCtx (pyLower "draw a sunset") "S" ++ "\nUser Request: " ++ "draw a sunset") ∧
    imageErrFrag ∈ (process_request "w@x.example" "draw a sunset" "S" none ["ok"]).frags :=
  c8_image_branch_rewrite "w@x.example" "draw a sunset" "S" "/static/x.png" ["ok"]
    (by decide) (by decide)

/-! ## Claim C3 -/

/-- C3, confirmed: when the engine is active, the utterance does not hit
the image short-circuit, and every provider/model candidate either raises
or returns empty text, `think` returns the canonical offline sentinel as an
ordinary string result. The embedding is a total function — every
exception a provider call can raise is caught inside the per-model loops —
so no exception reaches the caller. -/
theorem c3_all_candidates_fail_offline_sentinel
    (has_groq has_gemini : Bool) (groqOut gemOut : List (Option String))
    (seed : Nat) (user_input : String)
    (himg : aiImageTrigger user_input = false)
    (hg : ∀ o ∈ groqOut, o = none ∨ o = some "")
    (hm : ∀ o ∈ gemOut, o = none ∨ o = some "") :
    think true has_groq has_gemini groqOut gemOut seed user_input = offlineSentinel := by
  have hgq : truthy (if has_groq then try_groq groqOut else none) = none := by
    cases has_groq
    · rfl
    · simpa using truthy_try_groq_none groqOut hg
  have hgm : truthy (if has_gemini then try_gemini gemOut else none) = none := by
    cases has_gemini
    · rfl
    · simp [try_gemini_none_of_failed gemOut hm, truthy]
  simp [think, himg, hgq, hgm]

/-- Witness for C3: one raising and one empty outcome per provider. -/
theorem c3_all_candidates_fail_offline_sentinel_witness :
    think true true true [none, some ""] [some "", none] 0 "hello there" = offlineSentinel :=
  c3_all_candidates_fail_offline_sentinel true true [none, some ""] [some "", none]
    0 "hello there" (by decide) (by decide) (by decide)

/-! ## Claim C5 -/

/-- C5, counterexample: the claim says a model call returning empty text
does not end the iteration over that provider's remaining models. For the
Groq provider it does: with a first model returning empty text and a second
returning non-empty text, `_try_groq` returns the empty text of the first
call instead of continuing to the second. -/
theorem c5_groq_empty_text_ends_iteration :
    try_groq [some "", some "alpha"] = some "" ∧
    ¬ try_groq [some "", some "alpha"] = some "alpha" := by
  decide

/-- C5, amended: within the Gemini provider the iteration proceeds in fixed
order, continues past raising and past empty-text calls, and accepts the
first non-empty text; within the Groq provider the iteration continues past
raising calls only — the first call that returns at all ends the iteration
and its text is returned even when empty (at the `think` level such an
empty Groq result is then discarded by truthiness and Gemini is tried). -/
theorem c5_provider_iteration :
    (∀ (pre rest : List (Option String)) (s : String),
        (∀ o ∈ pre, o = none) → try_groq (pre ++ some s :: rest) = some s) ∧
    (∀ (pre rest : List (Option String)) (s : String),
        (∀ o ∈ pre, o = none ∨ o = some "") → ¬ s = "" →
          try_gemini (pre ++ some s :: rest) = some s) := by
  constructor
  · intro pre
    induction pre with
    | nil => intro rest s h; rfl
    | cons o pre ih =>
      intro rest s h
      have ho : o = none := h o (List.mem_cons_self _ _)
      subst ho
      exact ih rest s (fun o hx => h o (List.mem_cons_of_mem _ hx))
  · intro pre
    induction pre with
    | nil => intro rest s h hs; simp [try_gemini, hs]
    | cons o pre ih =>
      intro rest s h hs
      rcases h o (List.mem_cons_self _ _) with ho | ho
      · subst ho
        exact ih rest s (fun o hx => h o (List.mem_cons_of_mem _ hx)) hs
      · subst ho
        simpa [try_gemini] using ih rest s (fun o hx => h o (List.mem_cons_of_mem _ hx)) hs

/-- Witness for C5: Gemini skips a raise and an empty text before accepting;
Groq skips a raise before accepting. -/
theorem c5_provider_iteration_witness :
    try_groq [none, some "x"] = some "x" ∧
    try_gemini [none, some "", some "y"] = some "y" :=
  ⟨c5_provider_iteration.1 [none] [] "x" (by decide),
   c5_provider_iteration.2 [none, some ""] [] "y" (by decide) (by decide)⟩

/-! ## Claim C10 -/

/-- C10, counterexample: the claim says every utterance containing a
visual-synthesis keyword makes `think` return a markdown string embedding a
pollinations.ai image URL. When the engine is not active (no API key
configured), `think` on such an utterance returns the NEURAL OFFLINE
message, which contains no pollinations URL, before the image check runs. -/
theorem c10_inactive_engine_no_image :
    think false true true [some "hello"] [] 0 "draw a cat" = neuralOfflineMsg ∧
    strOccurs "pollinations" (think false true true [some "hello"] [] 0 "draw a cat") = false := by
  decide

/-- C10, amended: provided the engine is active, every utterance whose
lower-cased text contains one of draw, generate image, visualize, paint
makes `think` return exactly the `_generate_image` markdown — which embeds
a pollinations.ai image URL — for every possible provider outcome, i.e.
without consulting any text-generation provider. -/
theorem c10_image_shortcircuit (has_groq has_gemini : Bool)
    (groqOut gemOut : List (Option String)) (seed : Nat) (user_input : String)
    (himg : aiImageTrigger user_input = true) :
    think true has_groq has_gemini groqOut gemOut seed user_input
      = generate_image seed user_input ∧
    strOccurs "https://image.pollinations.ai/prompt/"
      (generate_image seed user_input) = true := by
  constructor
  · simp [think, himg]
  · have hlit : ("![Output](https://image.pollinations.ai/prompt/" : String)
        = "![Output](" ++ "https://image.pollinations.ai/prompt/" := by decide
    have h1 : generate_image seed user_input
        = "![Output](" ++ ("https://image.pollinations.ai/prompt/"
            ++ (cleanOf user_input ++ ("?seed=" ++ (toString seed
            ++ ("&model=flux&nologo=true)\n\n**Visual Synthesis:** *"
            ++ (cleanOf user_input ++ "*")))))) := by
      unfold generate_image
      rw [hlit, String.append_assoc]
    rw [h1]
    exact strOccurs_concat _ _ _

/-- Witness for C10: a concrete drawing request with the engine active. -/
theorem c10_image_shortcircuit_witness :
    think true true false [some "t"] [] 7 "please draw a boat"
      = generate_image 7 "please draw a boat" ∧
    strOccurs "https://image.pollinations.ai/prompt/"
      (generate_image 7 "please draw a boat") = true :=
  c10_image_shortcircuit true false [some "t"] [] 7 "please draw a boat" (by decide)

/-! ## Claim C7 -/

/-- C7, confirmed: for every stored message list and limit, history
retrieval returns a list sorted in non-decreasing timestamp order, of
length at most the limit, that is a permutation of the recency-descending
window the store fetched; and every stored message it leaves out is no
newer than any message it returns — the most recent at-most-limit turns,
oldest first. -/
theorem c7_history_chronological (msgs : List Msg) (limit : Nat) :
    List.Pairwise (fun a b => a.timestamp ≤ b.timestamp)
      (get_chat_history (Except.ok msgs) limit) ∧
    (get_chat_history (Except.ok msgs) limit).length ≤ limit ∧
    (get_chat_history (Except.ok msgs) limit).Perm (storeQueryDesc msgs limit) ∧
    ∀ y ∈ msgs, y ∉ get_chat_history (Except.ok msgs) limit →
      ∀ x ∈ get_chat_history (Except.ok msgs) limit, y.timestamp ≤ x.timestamp := by
  have hr : get_chat_history (Except.ok msgs) limit
      = (storeQueryDesc msgs limit).mergeSort leAsc := rfl
  have hperm : (get_chat_history (Except.ok msgs) limit).Perm (storeQueryDesc msgs limit) := by
    rw [hr]
    exact List.mergeSort_perm _ _
  refine ⟨?_, ?_, hperm, ?_⟩
  · rw [hr]
    exact (List.sorted_mergeSort leAsc_trans leAsc_total (storeQueryDesc msgs limit)).imp
      (fun h => by simpa [leAsc] using h)
  · rw [hr, List.length_mergeSort]
    unfold storeQueryDesc
    rw [List.length_take]
    exact min_le_left _ _
  · intro y hy hynr x hx
    have hsorted : List.Pairwise (fun a b => b.timestamp ≤ a.timestamp)
        (msgs.mergeSort leDesc) :=
      (List.sorted_mergeSort leDesc_trans leDesc_total msgs).imp
        (fun h => by simpa [leDesc] using h)
    have hyd : y ∈ msgs.mergeSort leDesc :=
      (List.mergeSort_perm msgs leDesc).mem_iff.mpr hy
    have hsplit : (msgs.mergeSort leDesc).take limit ++ (msgs.mergeSort leDesc).drop limit
        = msgs.mergeSort leDesc := List.take_append_drop limit _
    have hcross : ∀ a ∈ (msgs.mergeSort leDesc).take limit,
        ∀ b ∈ (msgs.mergeSort leDesc).drop limit, b.timestamp ≤ a.timestamp := by
      rw [← hsplit] at hsorted
      exact (List.pairwise_append.mp hsorted).2.2
    have hytake : y ∉ (msgs.mergeSort leDesc).take limit := by
      intro hyt
      exact hynr (hperm.mem_iff.mpr hyt)
    have hydrop : y ∈ (msgs.mergeSort leDesc).drop limit := by
      rw [← hsplit] at hyd
      rcases List.mem_append.mp hyd with h1 | h1
      · exact absurd h1 hytake
      · exact h1
    have hxtake : x ∈ (msgs.mergeSort leDesc).take limit := hperm.mem_iff.mp hx
    exact hcross x hxtake y hydrop

/-- Witness for C7: the length bound at a concrete store. -/
theorem c7_history_chronological_witness :
    (get_chat_history (Except.ok
      [{ timestamp := 5, role := "user", content := "a" },
       { timestamp := 3, role := "user", content := "b" },
       { timestamp := 9, role := "assistant", content := "c" }]) 2).length ≤ 2 :=
  (c7_history_chronological
    [{ timestamp := 5, role := "user", content := "a" },
     { timestamp := 3, role := "user", content := "b" },
     { timestamp := 9, role := "assistant", content := "c" }] 2).2.1

/-! ## Claim C9 -/

/-- C9, confirmed: when the underlying store query raises, get_chat_history
returns the empty list instead of propagating the exception — the except
branch of the source — so a storage failure degrades to an empty context
window. -/
theorem c9_store_error_empty_history (e : String) (limit : Nat) :
    get_chat_history (Except.error e) limit = [] := rfl

end Andse
